import Mathlib

/-!
Shallow embedding of the jj-mcp-server tool-dispatch and argument-marshaling
layer (src/src/lib.rs, with the duplicate entry point src/src/main.rs embedded
in namespace `MainBin`). External process execution is modelled by an oracle
`Exec` standing for the operating system: it maps the argument vector and the
optional working directory passed to `std::process::Command` to the spawn
result. Strings are Lean `String`s; `u32` values are `Nat`s bounded below
`2 ^ 32` at JSON-decoding time.
-/

/-- Model of `serde_json::Value`. Numbers are modelled as integers (the only
numeric values that can successfully decode into the `u32` fields used by
this program; any non-integer number is outside the model). -/
inductive JsonValue where
  | null : JsonValue
  | bool (b : Bool) : JsonValue
  | num (n : Int) : JsonValue
  | str (s : String) : JsonValue
  | arr (elems : List JsonValue) : JsonValue
  | obj (fields : List (String × JsonValue)) : JsonValue

/-- Lookup of a field in a JSON object (first match). -/
def getField : List (String × JsonValue) → String → Option JsonValue
  | [], _ => none
  | (k, v) :: rest, key => if k = key then some v else getField rest key

/-- Parameters for the status tool (`StatusParams` in lib.rs). The JSON key of
`repo_path` is "repoPath". -/
structure StatusParams where
  repo_path : Option String
  cwd : Option String
deriving Repr, DecidableEq, Inhabited

/-- Parameters for the rebase tool (`RebaseParams`). -/
structure RebaseParams where
  source : Option String
  destination : Option String
  repo_path : Option String
  cwd : Option String
deriving Repr, DecidableEq, Inhabited

/-- Parameters for the commit tool (`CommitParams`). -/
structure CommitParams where
  message : Option String
  repo_path : Option String
  cwd : Option String
deriving Repr, DecidableEq, Inhabited

/-- Parameters for the new tool (`NewParams`). -/
structure NewParams where
  parents : Option String
  repo_path : Option String
  cwd : Option String
deriving Repr, DecidableEq, Inhabited

/-- Parameters for the log tool (`LogParams`). `limit` is a `u32`. -/
structure LogParams where
  repo_path : Option String
  cwd : Option String
  limit : Option Nat
  template : Option String
  revisions : Option String
deriving Repr, DecidableEq, Inhabited

/-- Parameters for the diff tool (`DiffParams`). The Rust fields `from` and
`to` are Lean keywords, so they are rendered `from_` and `to_`; `context` is
a `u32`. -/
structure DiffParams where
  repo_path : Option String
  cwd : Option String
  from_ : Option String
  to_ : Option String
  paths : Option (List String)
  summary : Option Bool
  stat : Option Bool
  context : Option Nat
deriving Repr, DecidableEq, Inhabited

/-- Parameters for the git-clone tool (`GitCloneParams`). `depth` is a `u32`.
Note there is no `repo_path` and no `cwd` field. -/
structure GitCloneParams where
  source : Option String
  destination : Option String
  colocate : Option Bool
  remote : Option String
  depth : Option Nat
deriving Repr, DecidableEq, Inhabited

/-- Captured output of a completed child process (`std::process::Output`):
exit status plus the two separately captured streams, already decoded to
strings (`String::from_utf8_lossy`). -/
structure ProcOutput where
  exit_success : Bool
  stdout : String
  stderr : String
deriving Repr, DecidableEq

/-- Result of `cmd.output()`: either a completed process or a launch failure
carrying the description of the spawn error. -/
inductive SpawnResult where
  | ok (out : ProcOutput) : SpawnResult
  | launchErr (e : String) : SpawnResult
deriving Repr, DecidableEq

/-- The operating-system oracle: what `cmd.output()` yields for a given
argument vector and optional working-directory override. -/
abbrev Exec := List String → Option String → SpawnResult

/-- Model of `mcp_sdk::types::ToolResponseContent` (only the `Text` variant is
ever produced by this program). -/
inductive ToolResponseContent where
  | text (t : String) : ToolResponseContent
deriving Repr, DecidableEq

/-- Model of `mcp_sdk::types::CallToolResponse`. -/
structure CallToolResponse where
  content : List ToolResponseContent
  is_error : Option Bool
  meta : Option JsonValue

/-- Decoding of an optional string field by serde: a missing or null value is
`none`; a string succeeds; any other value is a type error (outer `none`). -/
def parseOptString : Option JsonValue → Option (Option String)
  | none => some none
  | some JsonValue.null => some none
  | some (JsonValue.str s) => some (some s)
  | some _ => none

/-- Decoding of an optional boolean field by serde. -/
def parseOptBool : Option JsonValue → Option (Option Bool)
  | none => some none
  | some JsonValue.null => some none
  | some (JsonValue.bool b) => some (some b)
  | some _ => none

/-- Decoding of an optional `u32` field by serde: integer in range accepted,
anything else is a type error. -/
def parseOptU32 : Option JsonValue → Option (Option Nat)
  | none => some none
  | some JsonValue.null => some none
  | some (JsonValue.num n) =>
      if 0 ≤ n ∧ n < 2 ^ 32 then some (some n.toNat) else none
  | some _ => none

/-- Decoding of a JSON array whose elements must all be strings. -/
def parseStringList : List JsonValue → Option (List String)
  | [] => some []
  | JsonValue.str s :: rest => (parseStringList rest).map (fun l => s :: l)
  | _ => none

/-- Decoding of an optional `Vec<String>` field by serde. -/
def parseOptStringList : Option JsonValue → Option (Option (List String))
  | none => some none
  | some JsonValue.null => some none
  | some (JsonValue.arr xs) => (parseStringList xs).map some
  | some _ => none

/-- Model of `serde_json::from_value::<StatusParams>`: the derived
deserializer accepts a JSON object (unknown fields ignored, missing and null
fields are `None`, a field of the wrong type fails) or a positional JSON
array with exactly one element per struct field in declaration order (the
derived `visit_seq` form); every other value fails. -/
def parseStatusParams : JsonValue → Option StatusParams
  | JsonValue.obj fs => do
      let rp ← parseOptString (getField fs "repoPath")
      let cwd ← parseOptString (getField fs "cwd")
      some ⟨rp, cwd⟩
  | JsonValue.arr [v1, v2] => do
      let rp ← parseOptString (some v1)
      let cwd ← parseOptString (some v2)
      some ⟨rp, cwd⟩
  | _ => none

/-- Model of `serde_json::from_value::<RebaseParams>` (object form, or
positional array of the four fields in declaration order). -/
def parseRebaseParams : JsonValue → Option RebaseParams
  | JsonValue.obj fs => do
      let src ← parseOptString (getField fs "source")
      let dst ← parseOptString (getField fs "destination")
      let rp ← parseOptString (getField fs "repoPath")
      let cwd ← parseOptString (getField fs "cwd")
      some ⟨src, dst, rp, cwd⟩
  | JsonValue.arr [v1, v2, v3, v4] => do
      let src ← parseOptString (some v1)
      let dst ← parseOptString (some v2)
      let rp ← parseOptString (some v3)
      let cwd ← parseOptString (some v4)
      some ⟨src, dst, rp, cwd⟩
  | _ => none

/-- Model of `serde_json::from_value::<CommitParams>` (object form, or
positional array of the three fields in declaration order). -/
def parseCommitParams : JsonValue → Option CommitParams
  | JsonValue.obj fs => do
      let msg ← parseOptString (getField fs "message")
      let rp ← parseOptString (getField fs "repoPath")
      let cwd ← parseOptString (getField fs "cwd")
      some ⟨msg, rp, cwd⟩
  | JsonValue.arr [v1, v2, v3] => do
      let msg ← parseOptString (some v1)
      let rp ← parseOptString (some v2)
      let cwd ← parseOptString (some v3)
      some ⟨msg, rp, cwd⟩
  | _ => none

/-- Model of `serde_json::from_value::<NewParams>` (object form, or
positional array of the three fields in declaration order). -/
def parseNewParams : JsonValue → Option NewParams
  | JsonValue.obj fs => do
      let par ← parseOptString (getField fs "parents")
      let rp ← parseOptString (getField fs "repoPath")
      let cwd ← parseOptString (getField fs "cwd")
      some ⟨par, rp, cwd⟩
  | JsonValue.arr [v1, v2, v3] => do
      let par ← parseOptString (some v1)
      let rp ← parseOptString (some v2)
      let cwd ← parseOptString (some v3)
      some ⟨par, rp, cwd⟩
  | _ => none

/-- Model of `serde_json::from_value::<LogParams>` (object form, or
positional array of the five fields in declaration order). -/
def parseLogParams : JsonValue → Option LogParams
  | JsonValue.obj fs => do
      let rp ← parseOptString (getField fs "repoPath")
      let cwd ← parseOptString (getField fs "cwd")
      let lim ← parseOptU32 (getField fs "limit")
      let tpl ← parseOptString (getField fs "template")
      let rev ← parseOptString (getField fs "revisions")
      some ⟨rp, cwd, lim, tpl, rev⟩
  | JsonValue.arr [v1, v2, v3, v4, v5] => do
      let rp ← parseOptString (some v1)
      let cwd ← parseOptString (some v2)
      let lim ← parseOptU32 (some v3)
      let tpl ← parseOptString (some v4)
      let rev ← parseOptString (some v5)
      some ⟨rp, cwd, lim, tpl, rev⟩
  | _ => none

/-- Model of `serde_json::from_value::<DiffParams>` (object form, or
positional array of the eight fields in declaration order). -/
def parseDiffParams : JsonValue → Option DiffParams
  | JsonValue.obj fs => do
      let rp ← parseOptString (getField fs "repoPath")
      let cwd ← parseOptString (getField fs "cwd")
      let f ← parseOptString (getField fs "from")
      let t ← parseOptString (getField fs "to")
      let ps ← parseOptStringList (getField fs "paths")
      let su ← parseOptBool (getField fs "summary")
      let st ← parseOptBool (getField fs "stat")
      let ctx ← parseOptU32 (getField fs "context")
      some ⟨rp, cwd, f, t, ps, su, st, ctx⟩
  | JsonValue.arr [v1, v2, v3, v4, v5, v6, v7, v8] => do
      let rp ← parseOptString (some v1)
      let cwd ← parseOptString (some v2)
      let f ← parseOptString (some v3)
      let t ← parseOptString (some v4)
      let ps ← parseOptStringList (some v5)
      let su ← parseOptBool (some v6)
      let st ← parseOptBool (some v7)
      let ctx ← parseOptU32 (some v8)
      some ⟨rp, cwd, f, t, ps, su, st, ctx⟩
  | _ => none

/-- Model of `serde_json::from_value::<GitCloneParams>` (object form, or
positional array of the five fields in declaration order). -/
def parseGitCloneParams : JsonValue → Option GitCloneParams
  | JsonValue.obj fs => do
      let src ← parseOptString (getField fs "source")
      let dst ← parseOptString (getField fs "destination")
      let col ← parseOptBool (getField fs "colocate")
      let rem ← parseOptString (getField fs "remote")
      let dep ← parseOptU32 (getField fs "depth")
      some ⟨src, dst, col, rem, dep⟩
  | JsonValue.arr [v1, v2, v3, v4, v5] => do
      let src ← parseOptString (some v1)
      let dst ← parseOptString (some v2)
      let col ← parseOptBool (some v3)
      let rem ← parseOptString (some v4)
      let dep ← parseOptU32 (some v5)
      some ⟨src, dst, col, rem, dep⟩
  | _ => none

/-- Function `add_repo_args` from lib.rs: append `-R <path>` when a repo path is
present, leave the vector unchanged otherwise. -/
def add_repo_args (args : List String) (repo_path : Option String) : List String :=
  match repo_path with
  | some path => args ++ ["-R", path]
  | none => args

/-- Model of Rust `str::trim`: drop whitespace characters from both ends of
the string. Defined structurally over the character list so that it is
computable in proofs. -/
def rustTrim (s : String) : String :=
  String.mk (((s.data.dropWhile Char.isWhitespace).reverse.dropWhile
    Char.isWhitespace).reverse)

/-- Function `run_jj_command_sync` from lib.rs: invoke the external process (via the
oracle `exec`) with the given argument vector and optional working directory;
on exit status zero return trimmed stdout, on non-zero exit fail with
"Error: " plus trimmed stderr, on a launch failure fail with "Error: " plus
the spawn error description. -/
def run_jj_command_sync (args : List String) (cwd : Option String)
    (exec : Exec) : Except String String :=
  match exec args cwd with
  | SpawnResult.ok output =>
      if output.exit_success then
        Except.ok (rustTrim output.stdout)
      else
        Except.error ("Error: " ++ rustTrim output.stderr)
  | SpawnResult.launchErr e => Except.error ("Error: " ++ e)

/-- Argument vector built by `run_jj_status` before `add_repo_args` is
applied (the fixed subcommand token). -/
def statusArgsBase (_params : StatusParams) : List String :=
  ["status"]

/-- Full argument vector built by `run_jj_status`. -/
def statusArgs (params : StatusParams) : List String :=
  add_repo_args (statusArgsBase params) params.repo_path

/-- Argument vector built by `run_jj_rebase` before `add_repo_args`. -/
def rebaseArgsBase (params : RebaseParams) : List String :=
  let args := ["rebase"]
  let args := match params.source with
    | some source => args ++ ["-s", source]
    | none => args
  let args := match params.destination with
    | some destination => args ++ ["-d", destination]
    | none => args
  args

/-- Full argument vector built by `run_jj_rebase`. -/
def rebaseArgs (params : RebaseParams) : List String :=
  add_repo_args (rebaseArgsBase params) params.repo_path

/-- Argument vector built by `run_jj_commit` before `add_repo_args`. -/
def commitArgsBase (params : CommitParams) : List String :=
  let args := ["commit"]
  let args := match params.message with
    | some message => args ++ ["-m", message]
    | none => args
  args

/-- Full argument vector built by `run_jj_commit`. -/
def commitArgs (params : CommitParams) : List String :=
  add_repo_args (commitArgsBase params) params.repo_path

/-- Argument vector built by `run_jj_new` before `add_repo_args`. -/
def newArgsBase (params : NewParams) : List String :=
  let args := ["new"]
  let args := match params.parents with
    | some parents => args ++ [parents]
    | none => args
  args

/-- Full argument vector built by `run_jj_new`. -/
def newArgs (params : NewParams) : List String :=
  add_repo_args (newArgsBase params) params.repo_path

/-- Argument vector built by `run_jj_log` before `add_repo_args`. -/
def logArgsBase (params : LogParams) : List String :=
  let args := ["log"]
  let args := match params.limit with
    | some limit => args ++ ["-n", toString limit]
    | none => args
  let args := match params.template with
    | some template => args ++ ["-T", template]
    | none => args
  let args := match params.revisions with
    | some revisions => args ++ [revisions]
    | none => args
  args

/-- Full argument vector built by `run_jj_log`. -/
def logArgs (params : LogParams) : List String :=
  add_repo_args (logArgsBase params) params.repo_path

/-- Argument vector built by `run_jj_diff` before `add_repo_args`. -/
def diffArgsBase (params : DiffParams) : List String :=
  let args := ["diff"]
  let args := match params.from_ with
    | some f => args ++ ["--from", f]
    | none => args
  let args := match params.to_ with
    | some t => args ++ ["--to", t]
    | none => args
  let args := match params.context with
    | some context => args ++ ["--context", toString context]
    | none => args
  let args := if params.summary = some true then args ++ ["--summary"] else args
  let args := if params.stat = some true then args ++ ["--stat"] else args
  let args := match params.paths with
    | some paths => args ++ paths
    | none => args
  args

/-- Full argument vector built by `run_jj_diff`. -/
def diffArgs (params : DiffParams) : List String :=
  add_repo_args (diffArgsBase params) params.repo_path

/-- Argument vector built by `run_jj_git_clone` (no `add_repo_args` step:
`GitCloneParams` has no repository-path field). -/
def gitCloneArgs (params : GitCloneParams) : List String :=
  let args := ["git", "clone"]
  let args := match params.source with
    | some source => args ++ [source]
    | none => args
  let args := match params.destination with
    | some destination => args ++ [destination]
    | none => args
  let args := if params.colocate = some true then args ++ ["--colocate"] else args
  let args := match params.remote with
    | some remote => args ++ ["--remote", remote]
    | none => args
  let args := match params.depth with
    | some depth => args ++ ["--depth", toString depth]
    | none => args
  args

/-- Handler `run_jj_status` from lib.rs. -/
def run_jj_status (params : StatusParams) (exec : Exec) : CallToolResponse :=
  match run_jj_command_sync (statusArgs params) params.cwd exec with
  | Except.ok output =>
      { content := [ToolResponseContent.text output], is_error := some false, meta := none }
  | Except.error e =>
      { content := [ToolResponseContent.text e], is_error := some true, meta := none }

/-- Handler `run_jj_rebase` from lib.rs. -/
def run_jj_rebase (params : RebaseParams) (exec : Exec) : CallToolResponse :=
  match run_jj_command_sync (rebaseArgs params) params.cwd exec with
  | Except.ok output =>
      { content := [ToolResponseContent.text output], is_error := some false, meta := none }
  | Except.error e =>
      { content := [ToolResponseContent.text e], is_error := some true, meta := none }

/-- Handler `run_jj_commit` from lib.rs. -/
def run_jj_commit (params : CommitParams) (exec : Exec) : CallToolResponse :=
  match run_jj_command_sync (commitArgs params) params.cwd exec with
  | Except.ok output =>
      { content := [ToolResponseContent.text output], is_error := some false, meta := none }
  | Except.error e =>
      { content := [ToolResponseContent.text e], is_error := some true, meta := none }

/-- Handler `run_jj_new` from lib.rs. -/
def run_jj_new (params : NewParams) (exec : Exec) : CallToolResponse :=
  match run_jj_command_sync (newArgs params) params.cwd exec with
  | Except.ok output =>
      { content := [ToolResponseContent.text output], is_error := some false, meta := none }
  | Except.error e =>
      { content := [ToolResponseContent.text e], is_error := some true, meta := none }

/-- Handler `run_jj_log` from lib.rs. -/
def run_jj_log (params : LogParams) (exec : Exec) : CallToolResponse :=
  match run_jj_command_sync (logArgs params) params.cwd exec with
  | Except.ok output =>
      { content := [ToolResponseContent.text output], is_error := some false, meta := none }
  | Except.error e =>
      { content := [ToolResponseContent.text e], is_error := some true, meta := none }

/-- Handler `run_jj_diff` from lib.rs. -/
def run_jj_diff (params : DiffParams) (exec : Exec) : CallToolResponse :=
  match run_jj_command_sync (diffArgs params) params.cwd exec with
  | Except.ok output =>
      { content := [ToolResponseContent.text output], is_error := some false, meta := none }
  | Except.error e =>
      { content := [ToolResponseContent.text e], is_error := some true, meta := none }

/-- Handler `run_jj_git_clone` from lib.rs: note the working directory passed to
`run_jj_command_sync` is always `none`. -/
def run_jj_git_clone (params : GitCloneParams) (exec : Exec) : CallToolResponse :=
  match run_jj_command_sync (gitCloneArgs params) none exec with
  | Except.ok output =>
      { content := [ToolResponseContent.text output], is_error := some false, meta := none }
  | Except.error e =>
      { content := [ToolResponseContent.text e], is_error := some true, meta := none }

/-- Struct `JjTool` from lib.rs: a registered tool entry. -/
structure JjTool where
  name : String
  description : String
  input_schema : JsonValue

/-- Dispatch `JjTool::call` from lib.rs (the `Tool` trait implementation): missing
arguments default to JSON null (`Value::default()`), each registered name
decodes its parameter object best-effort (`unwrap_or_default`) and runs its
handler, and an unmatched name produces the "Unknown tool" response. Every
branch returns `Except.ok`. -/
def JjTool.call (tool : JjTool) (arguments : Option JsonValue) (exec : Exec) :
    Except String CallToolResponse :=
  match tool.name with
  | "status" => Except.ok
      (run_jj_status ((parseStatusParams (arguments.getD JsonValue.null)).getD default) exec)
  | "rebase" => Except.ok
      (run_jj_rebase ((parseRebaseParams (arguments.getD JsonValue.null)).getD default) exec)
  | "commit" => Except.ok
      (run_jj_commit ((parseCommitParams (arguments.getD JsonValue.null)).getD default) exec)
  | "new" => Except.ok
      (run_jj_new ((parseNewParams (arguments.getD JsonValue.null)).getD default) exec)
  | "log" => Except.ok
      (run_jj_log ((parseLogParams (arguments.getD JsonValue.null)).getD default) exec)
  | "diff" => Except.ok
      (run_jj_diff ((parseDiffParams (arguments.getD JsonValue.null)).getD default) exec)
  | "git-clone" => Except.ok
      (run_jj_git_clone ((parseGitCloneParams (arguments.getD JsonValue.null)).getD default) exec)
  | _ => Except.ok
      { content := [ToolResponseContent.text ("Unknown tool: " ++ tool.name)],
        is_error := some true, meta := none }

namespace MainBin

/-- Function `add_repo_args` as defined in main.rs. -/
def add_repo_args (args : List String) (repo_path : Option String) : List String :=
  match repo_path with
  | some path => args ++ ["-R", path]
  | none => args

/-- Function `run_jj_command_sync` as defined in main.rs. -/
def run_jj_command_sync (args : List String) (cwd : Option String)
    (exec : Exec) : Except String String :=
  match exec args cwd with
  | SpawnResult.ok output =>
      if output.exit_success then
        Except.ok (rustTrim output.stdout)
      else
        Except.error ("Error: " ++ rustTrim output.stderr)
  | SpawnResult.launchErr e => Except.error ("Error: " ++ e)

/-- Argument vector built by main.rs `run_jj_status`. -/
def statusArgs (params : StatusParams) : List String :=
  MainBin.add_repo_args ["status"] params.repo_path

/-- Argument vector built by main.rs `run_jj_rebase`. -/
def rebaseArgs (params : RebaseParams) : List String :=
  let args := ["rebase"]
  let args := match params.source with
    | some source => args ++ ["-s", source]
    | none => args
  let args := match params.destination with
    | some destination => args ++ ["-d", destination]
    | none => args
  MainBin.add_repo_args args params.repo_path

/-- Argument vector built by main.rs `run_jj_commit`. -/
def commitArgs (params : CommitParams) : List String :=
  let args := ["commit"]
  let args := match params.message with
    | some message => args ++ ["-m", message]
    | none => args
  MainBin.add_repo_args args params.repo_path

/-- Argument vector built by main.rs `run_jj_new`. -/
def newArgs (params : NewParams) : List String :=
  let args := ["new"]
  let args := match params.parents with
    | some parents => args ++ [parents]
    | none => args
  MainBin.add_repo_args args params.repo_path

/-- Argument vector built by main.rs `run_jj_log`. -/
def logArgs (params : LogParams) : List String :=
  let args := ["log"]
  let args := match params.limit with
    | some limit => args ++ ["-n", toString limit]
    | none => args
  let args := match params.template with
    | some template => args ++ ["-T", template]
    | none => args
  let args := match params.revisions with
    | some revisions => args ++ [revisions]
    | none => args
  MainBin.add_repo_args args params.repo_path

/-- Argument vector built by main.rs `run_jj_diff`. -/
def diffArgs (params : DiffParams) : List String :=
  let args := ["diff"]
  let args := match params.from_ with
    | some f => args ++ ["--from", f]
    | none => args
  let args := match params.to_ with
    | some t => args ++ ["--to", t]
    | none => args
  let args := match params.context with
    | some context => args ++ ["--context", toString context]
    | none => args
  let args := if params.summary = some true then args ++ ["--summary"] else args
  let args := if params.stat = some true then args ++ ["--stat"] else args
  let args := match params.paths with
    | some paths => args ++ paths
    | none => args
  MainBin.add_repo_args args params.repo_path

/-- Argument vector built by main.rs `run_jj_git_clone`. -/
def gitCloneArgs (params : GitCloneParams) : List String :=
  let args := ["git", "clone"]
  let args := match params.source with
    | some source => args ++ [source]
    | none => args
  let args := match params.destination with
    | some destination => args ++ [destination]
    | none => args
  let args := if params.colocate = some true then args ++ ["--colocate"] else args
  let args := match params.remote with
    | some remote => args ++ ["--remote", remote]
    | none => args
  let args := match params.depth with
    | some depth => args ++ ["--depth", toString depth]
    | none => args
  args

/-- Handler `run_jj_status` as defined in main.rs. -/
def run_jj_status (params : StatusParams) (exec : Exec) : CallToolResponse :=
  match MainBin.run_jj_command_sync (MainBin.statusArgs params) params.cwd exec with
  | Except.ok output =>
      { content := [ToolResponseContent.text output], is_error := some false, meta := none }
  | Except.error e =>
      { content := [ToolResponseContent.text e], is_error := some true, meta := none }

/-- Handler `run_jj_rebase` as defined in main.rs. -/
def run_jj_rebase (params : RebaseParams) (exec : Exec) : CallToolResponse :=
  match MainBin.run_jj_command_sync (MainBin.rebaseArgs params) params.cwd exec with
  | Except.ok output =>
      { content := [ToolResponseContent.text output], is_error := some false, meta := none }
  | Except.error e =>
      { content := [ToolResponseContent.text e], is_error := some true, meta := none }

/-- Handler `run_jj_commit` as defined in main.rs. -/
def run_jj_commit (params : CommitParams) (exec : Exec) : CallToolResponse :=
  match MainBin.run_jj_command_sync (MainBin.commitArgs params) params.cwd exec with
  | Except.ok output =>
      { content := [ToolResponseContent.text output], is_error := some false, meta := none }
  | Except.error e =>
      { content := [ToolResponseContent.text e], is_error := some true, meta := none }

/-- Handler `run_jj_new` as defined in main.rs. -/
def run_jj_new (params : NewParams) (exec : Exec) : CallToolResponse :=
  match MainBin.run_jj_command_sync (MainBin.newArgs params) params.cwd exec with
  | Except.ok output =>
      { content := [ToolResponseContent.text output], is_error := some false, meta := none }
  | Except.error e =>
      { content := [ToolResponseContent.text e], is_error := some true, meta := none }

/-- Handler `run_jj_log` as defined in main.rs. -/
def run_jj_log (params : LogParams) (exec : Exec) : CallToolResponse :=
  match MainBin.run_jj_command_sync (MainBin.logArgs params) params.cwd exec with
  | Except.ok output =>
      { content := [ToolResponseContent.text output], is_error := some false, meta := none }
  | Except.error e =>
      { content := [ToolResponseContent.text e], is_error := some true, meta := none }

/-- Handler `run_jj_diff` as defined in main.rs. -/
def run_jj_diff (params : DiffParams) (exec : Exec) : CallToolResponse :=
  match MainBin.run_jj_command_sync (MainBin.diffArgs params) params.cwd exec with
  | Except.ok output =>
      { content := [ToolResponseContent.text output], is_error := some false, meta := none }
  | Except.error e =>
      { content := [ToolResponseContent.text e], is_error := some true, meta := none }

/-- Handler `run_jj_git_clone` as defined in main.rs (working directory always
`none`). -/
def run_jj_git_clone (params : GitCloneParams) (exec : Exec) : CallToolResponse :=
  match MainBin.run_jj_command_sync (MainBin.gitCloneArgs params) none exec with
  | Except.ok output =>
      { content := [ToolResponseContent.text output], is_error := some false, meta := none }
  | Except.error e =>
      { content := [ToolResponseContent.text e], is_error := some true, meta := none }

/-- Dispatch `JjTool::call` as defined in main.rs. -/
def call (tool : JjTool) (arguments : Option JsonValue) (exec : Exec) :
    Except String CallToolResponse :=
  match tool.name with
  | "status" => Except.ok
      (MainBin.run_jj_status ((parseStatusParams (arguments.getD JsonValue.null)).getD default) exec)
  | "rebase" => Except.ok
      (MainBin.run_jj_rebase ((parseRebaseParams (arguments.getD JsonValue.null)).getD default) exec)
  | "commit" => Except.ok
      (MainBin.run_jj_commit ((parseCommitParams (arguments.getD JsonValue.null)).getD default) exec)
  | "new" => Except.ok
      (MainBin.run_jj_new ((parseNewParams (arguments.getD JsonValue.null)).getD default) exec)
  | "log" => Except.ok
      (MainBin.run_jj_log ((parseLogParams (arguments.getD JsonValue.null)).getD default) exec)
  | "diff" => Except.ok
      (MainBin.run_jj_diff ((parseDiffParams (arguments.getD JsonValue.null)).getD default) exec)
  | "git-clone" => Except.ok
      (MainBin.run_jj_git_clone ((parseGitCloneParams (arguments.getD JsonValue.null)).getD default) exec)
  | _ => Except.ok
      { content := [ToolResponseContent.text ("Unknown tool: " ++ tool.name)],
        is_error := some true, meta := none }

end MainBin

/-- Diff argument vector written directly from the spec's table: `diff`, then
`--from <from>`, `--to <to>`, `--context <n>`, `--summary`, `--stat`, the
path tokens in given order, then repo-args. Used to compare the code's
builder against the spec's words. -/
def diffSpecVector (params : DiffParams) : List String :=
  ["diff"]
    ++ (match params.from_ with | some f => ["--from", f] | none => [])
    ++ (match params.to_ with | some t => ["--to", t] | none => [])
    ++ (match params.context with | some n => ["--context", toString n] | none => [])
    ++ (if params.summary = some true then ["--summary"] else [])
    ++ (if params.stat = some true then ["--stat"] else [])
    ++ (match params.paths with | some ps => ps | none => [])
    ++ (match params.repo_path with | some r => ["-R", r] | none => [])

/-- Git-clone argument vector written directly from the spec's table:
`git clone`, bare source, bare destination, `--colocate`, `--remote <name>`,
`--depth <n>`, and no repo-args. -/
def gitCloneSpecVector (params : GitCloneParams) : List String :=
  ["git", "clone"]
    ++ (match params.source with | some s => [s] | none => [])
    ++ (match params.destination with | some d => [d] | none => [])
    ++ (if params.colocate = some true then ["--colocate"] else [])
    ++ (match params.remote with | some r => ["--remote", r] | none => [])
    ++ (match params.depth with | some n => ["--depth", toString n] | none => [])

/-- Helper: `run_jj_status` always yields a single-text response with a
boolean flag and absent meta. -/
theorem run_jj_status_shape (p : StatusParams) (exec : Exec) :
    ∃ t b, run_jj_status p exec =
      { content := [ToolResponseContent.text t], is_error := some b, meta := none } := by
  unfold run_jj_status
  cases run_jj_command_sync (statusArgs p) p.cwd exec with
  | ok o => exact ⟨o, false, rfl⟩
  | error e => exact ⟨e, true, rfl⟩

/-- Helper: `run_jj_rebase` always yields a single-text response. -/
theorem run_jj_rebase_shape (p : RebaseParams) (exec : Exec) :
    ∃ t b, run_jj_rebase p exec =
      { content := [ToolResponseContent.text t], is_error := some b, meta := none } := by
  unfold run_jj_rebase
  cases run_jj_command_sync (rebaseArgs p) p.cwd exec with
  | ok o => exact ⟨o, false, rfl⟩
  | error e => exact ⟨e, true, rfl⟩

/-- Helper: `run_jj_commit` always yields a single-text response. -/
theorem run_jj_commit_shape (p : CommitParams) (exec : Exec) :
    ∃ t b, run_jj_commit p exec =
      { content := [ToolResponseContent.text t], is_error := some b, meta := none } := by
  unfold run_jj_commit
  cases run_jj_command_sync (commitArgs p) p.cwd exec with
  | ok o => exact ⟨o, false, rfl⟩
  | error e => exact ⟨e, true, rfl⟩

/-- Helper: `run_jj_new` always yields a single-text response. -/
theorem run_jj_new_shape (p : NewParams) (exec : Exec) :
    ∃ t b, run_jj_new p exec =
      { content := [ToolResponseContent.text t], is_error := some b, meta := none } := by
  unfold run_jj_new
  cases run_jj_command_sync (newArgs p) p.cwd exec with
  | ok o => exact ⟨o, false, rfl⟩
  | error e => exact ⟨e, true, rfl⟩

/-- Helper: `run_jj_log` always yields a single-text response. -/
theorem run_jj_log_shape (p : LogParams) (exec : Exec) :
    ∃ t b, run_jj_log p exec =
      { content := [ToolResponseContent.text t], is_error := some b, meta := none } := by
  unfold run_jj_log
  cases run_jj_command_sync (logArgs p) p.cwd exec with
  | ok o => exact ⟨o, false, rfl⟩
  | error e => exact ⟨e, true, rfl⟩

/-- Helper: `run_jj_diff` always yields a single-text response. -/
theorem run_jj_diff_shape (p : DiffParams) (exec : Exec) :
    ∃ t b, run_jj_diff p exec =
      { content := [ToolResponseContent.text t], is_error := some b, meta := none } := by
  unfold run_jj_diff
  cases run_jj_command_sync (diffArgs p) p.cwd exec with
  | ok o => exact ⟨o, false, rfl⟩
  | error e => exact ⟨e, true, rfl⟩

/-- Helper: `run_jj_git_clone` always yields a single-text response. -/
theorem run_jj_git_clone_shape (p : GitCloneParams) (exec : Exec) :
    ∃ t b, run_jj_git_clone p exec =
      { content := [ToolResponseContent.text t], is_error := some b, meta := none } := by
  unfold run_jj_git_clone
  cases run_jj_command_sync (gitCloneArgs p) none exec with
  | ok o => exact ⟨o, false, rfl⟩
  | error e => exact ⟨e, true, rfl⟩

/-- C1: for every tool name and every argument value (including absent
arguments) and every behaviour of the external process, `JjTool.call` returns
`Except.ok` of a response whose content is exactly one text item, whose
`is_error` is a present boolean, and whose `meta` is absent; no error
propagates to the caller. -/
theorem call_uniform_envelope (tool : JjTool) (arguments : Option JsonValue)
    (exec : Exec) :
    ∃ t b, tool.call arguments exec = Except.ok
      { content := [ToolResponseContent.text t], is_error := some b, meta := none } := by
  unfold JjTool.call
  split
  · obtain ⟨t, b, h⟩ := run_jj_status_shape
      ((parseStatusParams (arguments.getD JsonValue.null)).getD default) exec
    exact ⟨t, b, by rw [h]⟩
  · obtain ⟨t, b, h⟩ := run_jj_rebase_shape
      ((parseRebaseParams (arguments.getD JsonValue.null)).getD default) exec
    exact ⟨t, b, by rw [h]⟩
  · obtain ⟨t, b, h⟩ := run_jj_commit_shape
      ((parseCommitParams (arguments.getD JsonValue.null)).getD default) exec
    exact ⟨t, b, by rw [h]⟩
  · obtain ⟨t, b, h⟩ := run_jj_new_shape
      ((parseNewParams (arguments.getD JsonValue.null)).getD default) exec
    exact ⟨t, b, by rw [h]⟩
  · obtain ⟨t, b, h⟩ := run_jj_log_shape
      ((parseLogParams (arguments.getD JsonValue.null)).getD default) exec
    exact ⟨t, b, by rw [h]⟩
  · obtain ⟨t, b, h⟩ := run_jj_diff_shape
      ((parseDiffParams (arguments.getD JsonValue.null)).getD default) exec
    exact ⟨t, b, by rw [h]⟩
  · obtain ⟨t, b, h⟩ := run_jj_git_clone_shape
      ((parseGitCloneParams (arguments.getD JsonValue.null)).getD default) exec
    exact ⟨t, b, by rw [h]⟩
  · exact ⟨"Unknown tool: " ++ tool.name, true, rfl⟩

/-- C2: a non-zero exit yields a failure whose text is exactly "Error: " plus
the trimmed standard error; a launch failure yields "Error: " plus the spawn
error description; and every one of the seven tool handlers maps such a
failure to a response with `is_error = some true` carrying that exact text. -/
theorem failure_outcome_format :
    (∀ (args : List String) (cwd : Option String) (exec : Exec) (out : ProcOutput),
      exec args cwd = SpawnResult.ok out → out.exit_success = false →
      run_jj_command_sync args cwd exec = Except.error ("Error: " ++ rustTrim out.stderr)) ∧
    (∀ (args : List String) (cwd : Option String) (exec : Exec) (e : String),
      exec args cwd = SpawnResult.launchErr e →
      run_jj_command_sync args cwd exec = Except.error ("Error: " ++ e)) ∧
    (∀ (p : StatusParams) (exec : Exec) (e : String),
      run_jj_command_sync (statusArgs p) p.cwd exec = Except.error e →
      run_jj_status p exec =
        { content := [ToolResponseContent.text e], is_error := some true, meta := none }) ∧
    (∀ (p : RebaseParams) (exec : Exec) (e : String),
      run_jj_command_sync (rebaseArgs p) p.cwd exec = Except.error e →
      run_jj_rebase p exec =
        { content := [ToolResponseContent.text e], is_error := some true, meta := none }) ∧
    (∀ (p : CommitParams) (exec : Exec) (e : String),
      run_jj_command_sync (commitArgs p) p.cwd exec = Except.error e →
      run_jj_commit p exec =
        { content := [ToolResponseContent.text e], is_error := some true, meta := none }) ∧
    (∀ (p : NewParams) (exec : Exec) (e : String),
      run_jj_command_sync (newArgs p) p.cwd exec = Except.error e →
      run_jj_new p exec =
        { content := [ToolResponseContent.text e], is_error := some true, meta := none }) ∧
    (∀ (p : LogParams) (exec : Exec) (e : String),
      run_jj_command_sync (logArgs p) p.cwd exec = Except.error e →
      run_jj_log p exec =
        { content := [ToolResponseContent.text e], is_error := some true, meta := none }) ∧
    (∀ (p : DiffParams) (exec : Exec) (e : String),
      run_jj_command_sync (diffArgs p) p.cwd exec = Except.error e →
      run_jj_diff p exec =
        { content := [ToolResponseContent.text e], is_error := some true, meta := none }) ∧
    (∀ (p : GitCloneParams) (exec : Exec) (e : String),
      run_jj_command_sync (gitCloneArgs p) none exec = Except.error e →
      run_jj_git_clone p exec =
        { content := [ToolResponseContent.text e], is_error := some true, meta := none }) := by
  refine ⟨?_, ?_, ?_, ?_, ?_, ?_, ?_, ?_, ?_⟩
  · intro args cwd exec out h hf
    unfold run_jj_command_sync
    rw [h]
    simp [hf]
  · intro args cwd exec e h
    unfold run_jj_command_sync
    rw [h]
  · intro p exec e h
    unfold run_jj_status
    rw [h]
  · intro p exec e h
    unfold run_jj_rebase
    rw [h]
  · intro p exec e h
    unfold run_jj_commit
    rw [h]
  · intro p exec e h
    unfold run_jj_new
    rw [h]
  · intro p exec e h
    unfold run_jj_log
    rw [h]
  · intro p exec e h
    unfold run_jj_diff
    rw [h]
  · intro p exec e h
    unfold run_jj_git_clone
    rw [h]

/-- Witness for C2 at concrete inputs: a process exiting non-zero with
stderr " boom \n" and a handler seeing a launch failure. -/
theorem failure_outcome_format_witness :
    run_jj_command_sync ["status"] none
        (fun _ _ => SpawnResult.ok ⟨false, "", " boom \n"⟩) =
      Except.error "Error: boom" ∧
    run_jj_status ⟨none, none⟩ (fun _ _ => SpawnResult.launchErr "no such file") =
      { content := [ToolResponseContent.text "Error: no such file"],
        is_error := some true, meta := none } := by
  constructor
  · have h := failure_outcome_format.1 ["status"] none
      (fun _ _ => SpawnResult.ok ⟨false, "", " boom \n"⟩) ⟨false, "", " boom \n"⟩ rfl rfl
    rw [h]
    rfl
  · have h0 := failure_outcome_format.2.1 (statusArgs ⟨none, none⟩) none
      (fun _ _ => SpawnResult.launchErr "no such file") "no such file" rfl
    exact failure_outcome_format.2.2.1 ⟨none, none⟩
      (fun _ _ => SpawnResult.launchErr "no such file") "Error: no such file" h0

/-- C3: a zero exit yields a success outcome whose text is the trimmed
standard output; in particular empty standard output on success yields
`Except.ok ""`, not an error. -/
theorem success_outcome_format :
    (∀ (args : List String) (cwd : Option String) (exec : Exec) (out : ProcOutput),
      exec args cwd = SpawnResult.ok out → out.exit_success = true →
      run_jj_command_sync args cwd exec = Except.ok (rustTrim out.stdout)) ∧
    (∀ (args : List String) (cwd : Option String) (exec : Exec) (out : ProcOutput),
      exec args cwd = SpawnResult.ok out → out.exit_success = true → out.stdout = "" →
      run_jj_command_sync args cwd exec = Except.ok "") := by
  constructor
  · intro args cwd exec out h hs
    unfold run_jj_command_sync
    rw [h]
    simp [hs]
  · intro args cwd exec out h hs hempty
    unfold run_jj_command_sync
    rw [h]
    simp [hs, hempty]
    rfl

/-- Witness for C3 at concrete inputs: trimmed output "M file.txt" and the
empty-output success case. -/
theorem success_outcome_format_witness :
    run_jj_command_sync ["status"] (some "/w")
        (fun _ _ => SpawnResult.ok ⟨true, "M file.txt\n", ""⟩) =
      Except.ok "M file.txt" ∧
    run_jj_command_sync ["commit"] none
        (fun _ _ => SpawnResult.ok ⟨true, "", ""⟩) = Except.ok "" := by
  constructor
  · have h := success_outcome_format.1 ["status"] (some "/w")
      (fun _ _ => SpawnResult.ok ⟨true, "M file.txt\n", ""⟩) ⟨true, "M file.txt\n", ""⟩ rfl rfl
    rw [h]
    rfl
  · exact success_outcome_format.2 ["commit"] none
      (fun _ _ => SpawnResult.ok ⟨true, "", ""⟩) ⟨true, "", ""⟩ rfl rfl rfl

/-- C4: dispatching any tool whose name is not one of the seven registered
names returns a normal `Except.ok` outcome with `is_error = some true` and
text "Unknown tool: " followed by that name, for every argument value and
every external-process behaviour. -/
theorem unknown_tool_outcome (tool : JjTool) (arguments : Option JsonValue)
    (exec : Exec)
    (h : tool.name ∉
      (["status", "rebase", "commit", "new", "log", "diff", "git-clone"] : List String)) :
    tool.call arguments exec = Except.ok
      { content := [ToolResponseContent.text ("Unknown tool: " ++ tool.name)],
        is_error := some true, meta := none } := by
  unfold JjTool.call
  split
  all_goals simp_all

/-- Witness for C4: calling with the unregistered name "frobnicate". -/
theorem unknown_tool_outcome_witness :
    JjTool.call ⟨"frobnicate", "d", JsonValue.null⟩ none
        (fun _ _ => SpawnResult.launchErr "x") = Except.ok
      { content := [ToolResponseContent.text "Unknown tool: frobnicate"],
        is_error := some true, meta := none } := by
  have h := unknown_tool_outcome ⟨"frobnicate", "d", JsonValue.null⟩ none
    (fun _ _ => SpawnResult.launchErr "x") (by decide)
  rw [h]
  rfl

/-- C5: for every tool except git-clone, a present repository path P makes
the built vector end in exactly the two tokens "-R" then P after the
otherwise-unchanged base vector; an absent repository path appends nothing.
The base vector never depends on the repository-path field. -/
theorem repo_args_invariant :
    (∀ (p : StatusParams) (P : String), p.repo_path = some P →
      statusArgs p = statusArgsBase p ++ ["-R", P]) ∧
    (∀ p : StatusParams, p.repo_path = none → statusArgs p = statusArgsBase p) ∧
    (∀ (p : StatusParams) (x : Option String),
      statusArgsBase { p with repo_path := x } = statusArgsBase p) ∧
    (∀ (p : RebaseParams) (P : String), p.repo_path = some P →
      rebaseArgs p = rebaseArgsBase p ++ ["-R", P]) ∧
    (∀ p : RebaseParams, p.repo_path = none → rebaseArgs p = rebaseArgsBase p) ∧
    (∀ (p : RebaseParams) (x : Option String),
      rebaseArgsBase { p with repo_path := x } = rebaseArgsBase p) ∧
    (∀ (p : CommitParams) (P : String), p.repo_path = some P →
      commitArgs p = commitArgsBase p ++ ["-R", P]) ∧
    (∀ p : CommitParams, p.repo_path = none → commitArgs p = commitArgsBase p) ∧
    (∀ (p : CommitParams) (x : Option String),
      commitArgsBase { p with repo_path := x } = commitArgsBase p) ∧
    (∀ (p : NewParams) (P : String), p.repo_path = some P →
      newArgs p = newArgsBase p ++ ["-R", P]) ∧
    (∀ p : NewParams, p.repo_path = none → newArgs p = newArgsBase p) ∧
    (∀ (p : NewParams) (x : Option String),
      newArgsBase { p with repo_path := x } = newArgsBase p) ∧
    (∀ (p : LogParams) (P : String), p.repo_path = some P →
      logArgs p = logArgsBase p ++ ["-R", P]) ∧
    (∀ p : LogParams, p.repo_path = none → logArgs p = logArgsBase p) ∧
    (∀ (p : LogParams) (x : Option String),
      logArgsBase { p with repo_path := x } = logArgsBase p) ∧
    (∀ (p : DiffParams) (P : String), p.repo_path = some P →
      diffArgs p = diffArgsBase p ++ ["-R", P]) ∧
    (∀ p : DiffParams, p.repo_path = none → diffArgs p = diffArgsBase p) ∧
    (∀ (p : DiffParams) (x : Option String),
      diffArgsBase { p with repo_path := x } = diffArgsBase p) := by
  refine ⟨?_, ?_, ?_, ?_, ?_, ?_, ?_, ?_, ?_, ?_, ?_, ?_, ?_, ?_, ?_, ?_, ?_, ?_⟩
  · intro p P h
    simp [statusArgs, add_repo_args, h]
  · intro p h
    simp [statusArgs, add_repo_args, h]
  · intro p x
    rfl
  · intro p P h
    simp [rebaseArgs, add_repo_args, h]
  · intro p h
    simp [rebaseArgs, add_repo_args, h]
  · intro p x
    rfl
  · intro p P h
    simp [commitArgs, add_repo_args, h]
  · intro p h
    simp [commitArgs, add_repo_args, h]
  · intro p x
    rfl
  · intro p P h
    simp [newArgs, add_repo_args, h]
  · intro p h
    simp [newArgs, add_repo_args, h]
  · intro p x
    rfl
  · intro p P h
    simp [logArgs, add_repo_args, h]
  · intro p h
    simp [logArgs, add_repo_args, h]
  · intro p x
    rfl
  · intro p P h
    simp [diffArgs, add_repo_args, h]
  · intro p h
    simp [diffArgs, add_repo_args, h]
  · intro p x
    rfl

/-- Witness for C5 at concrete inputs: status with and without a repository
path. -/
theorem repo_args_invariant_witness :
    statusArgs ⟨some "/repo", none⟩ = ["status", "-R", "/repo"] ∧
    statusArgs ⟨none, some "/w"⟩ = ["status"] := by
  constructor
  · have h := repo_args_invariant.1 ⟨some "/repo", none⟩ "/repo" rfl
    rw [h]
    rfl
  · have h := repo_args_invariant.2.1 ⟨none, some "/w"⟩ rfl
    rw [h]
    rfl

/-- Helper: the diff builder agrees with the spec's fixed-order vector. -/
theorem diffArgs_spec (p : DiffParams) : diffArgs p = diffSpecVector p := by
  obtain ⟨rp, cwd, f, t, ps, su, st, ctx⟩ := p
  unfold diffArgs diffArgsBase diffSpecVector add_repo_args
  cases f <;> cases t <;> cases ctx <;> cases ps <;> cases rp <;>
    rcases su with _ | b <;> (try cases b) <;> rcases st with _ | c <;>
    (try cases c) <;> simp

/-- Helper: the git-clone builder agrees with the spec's fixed-order vector. -/
theorem gitCloneArgs_spec (p : GitCloneParams) :
    gitCloneArgs p = gitCloneSpecVector p := by
  obtain ⟨src, dst, col, rem, dep⟩ := p
  unfold gitCloneArgs gitCloneSpecVector
  cases src <;> cases dst <;> cases rem <;> cases dep <;>
    rcases col with _ | b <;> (try cases b) <;> simp

/-- C6: the diff argument vector is "diff" followed, in the spec's fixed
order, by the optional --from, --to, --context segments, the --summary and
--stat flags, the path tokens in given order, then repo-args; in particular
with paths ["a.txt", "b.txt"] those two tokens appear in that relative order
after all flag options and before repo-args. -/
theorem diff_vector_fixed_order :
    (∀ p : DiffParams, diffArgs p = diffSpecVector p) ∧
    (∀ p : DiffParams, p.paths = some ["a.txt", "b.txt"] →
      ∃ flags : List String, diffArgs p = ["diff"] ++ flags ++ ["a.txt", "b.txt"]
        ++ (match p.repo_path with | some r => ["-R", r] | none => [])) := by
  constructor
  · exact diffArgs_spec
  · intro p hp
    refine ⟨(match p.from_ with | some f => ["--from", f] | none => [])
      ++ (match p.to_ with | some t => ["--to", t] | none => [])
      ++ (match p.context with | some n => ["--context", toString n] | none => [])
      ++ (if p.summary = some true then ["--summary"] else [])
      ++ (if p.stat = some true then ["--stat"] else []), ?_⟩
    rw [diffArgs_spec p]
    unfold diffSpecVector
    rw [hp]
    simp

/-- Witness for C6: a diff call with from-revision "A", summary flag, and the
two paths. -/
theorem diff_vector_fixed_order_witness :
    ∃ flags : List String,
      diffArgs ⟨none, none, some "A", none, some ["a.txt", "b.txt"], some true, none, none⟩ =
        ["diff"] ++ flags ++ ["a.txt", "b.txt"] := by
  obtain ⟨flags, h⟩ := diff_vector_fixed_order.2
    ⟨none, none, some "A", none, some ["a.txt", "b.txt"], some true, none, none⟩ rfl
  refine ⟨flags, ?_⟩
  simpa using h

/-- C7: the git-clone argument vector is "git" "clone" followed, in the
spec's fixed order, by the bare source, bare destination, --colocate flag,
--remote and --depth pairs; with source=S, destination=D, depth=10 it is
exactly ["git","clone",S,D,"--depth","10"] and contains no "-R" token; and
the call's behaviour never depends on the oracle's answers for any overridden
working directory (the working directory passed is always `none`). -/
theorem git_clone_vector_fixed :
    (∀ p : GitCloneParams, gitCloneArgs p = gitCloneSpecVector p) ∧
    (∀ S D : String, gitCloneArgs ⟨some S, some D, none, none, some 10⟩ =
      ["git", "clone", S, D, "--depth", "10"]) ∧
    (∀ S D : String, S ≠ "-R" → D ≠ "-R" →
      "-R" ∉ gitCloneArgs ⟨some S, some D, none, none, some 10⟩) ∧
    (∀ (p : GitCloneParams) (exec1 exec2 : Exec),
      (∀ a, exec1 a none = exec2 a none) →
      run_jj_git_clone p exec1 = run_jj_git_clone p exec2) := by
  refine ⟨gitCloneArgs_spec, ?_, ?_, ?_⟩
  · intro S D
    rfl
  · intro S D hS hD hmem
    have h : gitCloneArgs ⟨some S, some D, none, none, some 10⟩ =
        ["git", "clone", S, D, "--depth", "10"] := rfl
    rw [h] at hmem
    simp only [List.mem_cons, List.not_mem_nil, or_false] at hmem
    rcases hmem with h1 | h1 | h1 | h1 | h1 | h1
    · exact absurd h1 (by decide)
    · exact absurd h1 (by decide)
    · exact hS h1.symm
    · exact hD h1.symm
    · exact absurd h1 (by decide)
    · exact absurd h1 (by decide)
  · intro p exec1 exec2 h
    unfold run_jj_git_clone run_jj_command_sync
    rw [h (gitCloneArgs p)]

/-- Witness for C7: concrete clone of a URL into "dest" with depth 10, and
working-directory independence for two oracles that agree at `none`. -/
theorem git_clone_vector_fixed_witness :
    "-R" ∉ gitCloneArgs ⟨some "https://h/r.git", some "dest", none, none, some 10⟩ ∧
    run_jj_git_clone ⟨some "https://h/r.git", none, none, none, none⟩
        (fun _ _ => SpawnResult.ok ⟨true, "done", ""⟩) =
      run_jj_git_clone ⟨some "https://h/r.git", none, none, none, none⟩
        (fun _ c => match c with
          | none => SpawnResult.ok ⟨true, "done", ""⟩
          | some _ => SpawnResult.launchErr "never") := by
  constructor
  · exact git_clone_vector_fixed.2.2.1 "https://h/r.git" "dest" (by decide) (by decide)
  · exact git_clone_vector_fixed.2.2.2 ⟨some "https://h/r.git", none, none, none, none⟩
      _ _ (fun a => rfl)

/-- C8: each boolean flag (--summary, --stat, --colocate) is emitted as a
single bare token exactly when its field is `some true` (absent and
`some false` both emit nothing), and a `some true` field always places the
token in the vector. The first two conjuncts exhibit each flag's contribution
as `if field = some true then [token] else []`, so the flag never takes a
value token of its own. -/
theorem boolean_flag_emission :
    (∀ p : DiffParams, diffArgsBase p =
      ["diff"]
        ++ (match p.from_ with | some f => ["--from", f] | none => [])
        ++ (match p.to_ with | some t => ["--to", t] | none => [])
        ++ (match p.context with | some n => ["--context", toString n] | none => [])
        ++ (if p.summary = some true then ["--summary"] else [])
        ++ (if p.stat = some true then ["--stat"] else [])
        ++ (match p.paths with | some ps => ps | none => [])) ∧
    (∀ g : GitCloneParams, gitCloneArgs g =
      ["git", "clone"]
        ++ (match g.source with | some s => [s] | none => [])
        ++ (match g.destination with | some d => [d] | none => [])
        ++ (if g.colocate = some true then ["--colocate"] else [])
        ++ (match g.remote with | some r => ["--remote", r] | none => [])
        ++ (match g.depth with | some n => ["--depth", toString n] | none => [])) ∧
    (∀ p : DiffParams, p.summary = some true → "--summary" ∈ diffArgs p) ∧
    (∀ p : DiffParams, p.stat = some true → "--stat" ∈ diffArgs p) ∧
    (∀ g : GitCloneParams, g.colocate = some true → "--colocate" ∈ gitCloneArgs g) ∧
    (∀ cwd : Option String,
      "--summary" ∉ diffArgs ⟨none, cwd, none, none, none, none, none, none⟩ ∧
      "--stat" ∉ diffArgs ⟨none, cwd, none, none, none, none, none, none⟩) ∧
    (∀ g : GitCloneParams, g.colocate ≠ some true → g.source = none →
      g.destination = none → g.remote = none → g.depth = none →
      "--colocate" ∉ gitCloneArgs g) := by
  refine ⟨?_, ?_, ?_, ?_, ?_, ?_, ?_⟩
  · intro p
    have h := diffArgs_spec { p with repo_path := none }
    simp only [diffArgs, add_repo_args, diffSpecVector] at h
    simpa using h
  · intro g
    simpa [gitCloneSpecVector] using gitCloneArgs_spec g
  · intro p h
    rw [diffArgs_spec p]
    simp [diffSpecVector, h]
  · intro p h
    rw [diffArgs_spec p]
    simp [diffSpecVector, h]
  · intro g h
    rw [gitCloneArgs_spec g]
    simp [gitCloneSpecVector, h]
  · intro cwd
    constructor
    · rw [diffArgs_spec]
      simp [diffSpecVector]
    · rw [diffArgs_spec]
      simp [diffSpecVector]
  · intro g hcol hs hd hr hdep
    obtain ⟨src, dst, col, rem, dep⟩ := g
    simp only at hs hd hr hdep
    subst hs
    subst hd
    subst hr
    subst hdep
    rcases col with _ | b
    · rw [gitCloneArgs_spec]
      decide
    · cases b
      · rw [gitCloneArgs_spec]
        decide
      · exact absurd rfl hcol

/-- Witness for C8: summary flag present for diff; colocate absent for a
clone with no optional fields. -/
theorem boolean_flag_emission_witness :
    "--summary" ∈ diffArgs ⟨none, none, none, none, none, some true, none, none⟩ ∧
    "--colocate" ∉ gitCloneArgs ⟨none, none, some false, none, none⟩ := by
  constructor
  · exact boolean_flag_emission.2.2.1 ⟨none, none, none, none, none, some true, none, none⟩ rfl
  · exact boolean_flag_emission.2.2.2.2.2.2 ⟨none, none, some false, none, none⟩
      (by decide) rfl rfl rfl rfl

/-- C9: for every registered tool, whenever decoding of the raw argument
value fails (malformed value, wrong type, or absent arguments, which default
to JSON null and null fails to decode into any parameter struct), the
default all-absent parameter object is silently substituted and the handler
still runs; unknown fields never affect decoding (shown for the status
parameters) and no decode failure is turned into an error outcome. -/
theorem parse_failure_defaults :
    (∀ (tool : JjTool) (arguments : Option JsonValue) (exec : Exec),
      tool.name = "status" →
      parseStatusParams (arguments.getD JsonValue.null) = none →
      tool.call arguments exec = Except.ok (run_jj_status default exec)) ∧
    (∀ (tool : JjTool) (arguments : Option JsonValue) (exec : Exec),
      tool.name = "rebase" →
      parseRebaseParams (arguments.getD JsonValue.null) = none →
      tool.call arguments exec = Except.ok (run_jj_rebase default exec)) ∧
    (∀ (tool : JjTool) (arguments : Option JsonValue) (exec : Exec),
      tool.name = "commit" →
      parseCommitParams (arguments.getD JsonValue.null) = none →
      tool.call arguments exec = Except.ok (run_jj_commit default exec)) ∧
    (∀ (tool : JjTool) (arguments : Option JsonValue) (exec : Exec),
      tool.name = "new" →
      parseNewParams (arguments.getD JsonValue.null) = none →
      tool.call arguments exec = Except.ok (run_jj_new default exec)) ∧
    (∀ (tool : JjTool) (arguments : Option JsonValue) (exec : Exec),
      tool.name = "log" →
      parseLogParams (arguments.getD JsonValue.null) = none →
      tool.call arguments exec = Except.ok (run_jj_log default exec)) ∧
    (∀ (tool : JjTool) (arguments : Option JsonValue) (exec : Exec),
      tool.name = "diff" →
      parseDiffParams (arguments.getD JsonValue.null) = none →
      tool.call arguments exec = Except.ok (run_jj_diff default exec)) ∧
    (∀ (tool : JjTool) (arguments : Option JsonValue) (exec : Exec),
      tool.name = "git-clone" →
      parseGitCloneParams (arguments.getD JsonValue.null) = none →
      tool.call arguments exec = Except.ok (run_jj_git_clone default exec)) ∧
    (parseStatusParams JsonValue.null = none ∧
     parseRebaseParams JsonValue.null = none ∧
     parseCommitParams JsonValue.null = none ∧
     parseNewParams JsonValue.null = none ∧
     parseLogParams JsonValue.null = none ∧
     parseDiffParams JsonValue.null = none ∧
     parseGitCloneParams JsonValue.null = none) ∧
    (∀ (fs : List (String × JsonValue)) (k : String) (v : JsonValue),
      k ≠ "repoPath" → k ≠ "cwd" →
      parseStatusParams (JsonValue.obj ((k, v) :: fs)) =
        parseStatusParams (JsonValue.obj fs)) := by
  refine ⟨?_, ?_, ?_, ?_, ?_, ?_, ?_, ?_, ?_⟩
  · intro tool arguments exec hname hparse
    unfold JjTool.call
    rw [hname]
    simp [hparse]
  · intro tool arguments exec hname hparse
    unfold JjTool.call
    rw [hname]
    simp [hparse]
  · intro tool arguments exec hname hparse
    unfold JjTool.call
    rw [hname]
    simp [hparse]
  · intro tool arguments exec hname hparse
    unfold JjTool.call
    rw [hname]
    simp [hparse]
  · intro tool arguments exec hname hparse
    unfold JjTool.call
    rw [hname]
    simp [hparse]
  · intro tool arguments exec hname hparse
    unfold JjTool.call
    rw [hname]
    simp [hparse]
  · intro tool arguments exec hname hparse
    unfold JjTool.call
    rw [hname]
    simp [hparse]
  · exact ⟨rfl, rfl, rfl, rfl, rfl, rfl, rfl⟩
  · intro fs k v h1 h2
    unfold parseStatusParams
    simp [getField, h1, h2]

/-- Witness for C9: the status tool called with the non-object argument
`true` runs with the all-default parameters; an unknown field "bogus" is
ignored by decoding. -/
theorem parse_failure_defaults_witness :
    JjTool.call ⟨"status", "d", JsonValue.null⟩ (some (JsonValue.bool true))
        (fun _ _ => SpawnResult.launchErr "off") =
      Except.ok (run_jj_status default (fun _ _ => SpawnResult.launchErr "off")) ∧
    parseStatusParams (JsonValue.obj [("bogus", JsonValue.num 3)]) =
      parseStatusParams (JsonValue.obj []) := by
  constructor
  · exact parse_failure_defaults.1 ⟨"status", "d", JsonValue.null⟩
      (some (JsonValue.bool true)) (fun _ _ => SpawnResult.launchErr "off") rfl rfl
  · exact parse_failure_defaults.2.2.2.2.2.2.2.2 [] "bogus" (JsonValue.num 3)
      (by decide) (by decide)

/-- C10: the binary entry point (main.rs, namespace `MainBin`) and the
library entry point (lib.rs) are equivalent: for every parameter object they
build identical argument vectors, and for every external-process behaviour
(including oracles that discriminate on the working directory, so identical
working directories are passed) they produce identical response envelopes,
and the dispatch functions agree on every tool name and argument value. -/
theorem main_lib_equivalent :
    (∀ p : StatusParams, MainBin.statusArgs p = statusArgs p) ∧
    (∀ p : RebaseParams, MainBin.rebaseArgs p = rebaseArgs p) ∧
    (∀ p : CommitParams, MainBin.commitArgs p = commitArgs p) ∧
    (∀ p : NewParams, MainBin.newArgs p = newArgs p) ∧
    (∀ p : LogParams, MainBin.logArgs p = logArgs p) ∧
    (∀ p : DiffParams, MainBin.diffArgs p = diffArgs p) ∧
    (∀ p : GitCloneParams, MainBin.gitCloneArgs p = gitCloneArgs p) ∧
    (∀ (p : StatusParams) (exec : Exec),
      MainBin.run_jj_status p exec = run_jj_status p exec) ∧
    (∀ (p : RebaseParams) (exec : Exec),
      MainBin.run_jj_rebase p exec = run_jj_rebase p exec) ∧
    (∀ (p : CommitParams) (exec : Exec),
      MainBin.run_jj_commit p exec = run_jj_commit p exec) ∧
    (∀ (p : NewParams) (exec : Exec),
      MainBin.run_jj_new p exec = run_jj_new p exec) ∧
    (∀ (p : LogParams) (exec : Exec),
      MainBin.run_jj_log p exec = run_jj_log p exec) ∧
    (∀ (p : DiffParams) (exec : Exec),
      MainBin.run_jj_diff p exec = run_jj_diff p exec) ∧
    (∀ (p : GitCloneParams) (exec : Exec),
      MainBin.run_jj_git_clone p exec = run_jj_git_clone p exec) ∧
    (∀ (tool : JjTool) (arguments : Option JsonValue) (exec : Exec),
      MainBin.call tool arguments exec = tool.call arguments exec) := by
  refine ⟨?_, ?_, ?_, ?_, ?_, ?_, ?_, ?_, ?_, ?_, ?_, ?_, ?_, ?_, ?_⟩
  · intro p
    rfl
  · intro p
    rfl
  · intro p
    rfl
  · intro p
    rfl
  · intro p
    rfl
  · intro p
    rfl
  · intro p
    rfl
  · intro p exec
    rfl
  · intro p exec
    rfl
  · intro p exec
    rfl
  · intro p exec
    rfl
  · intro p exec
    rfl
  · intro p exec
    rfl
  · intro p exec
    rfl
  · intro tool arguments exec
    rfl
